import Mathlib

/-!
Verification of the FinViz stock-news sentiment pipeline (`main.py`).

The embedding models `parse_news`, `score_news`, `plot_hourly_sentiment`
and `plot_daily_sentiment` as pure Lean functions.

Modelling decisions, traced to the source:

* A markup table row `<tr>` is modelled by `TrRow`: `a` is the text of the
  row's first link element (`x.a.get_text()`, `none` when the element is
  absent, in which case Python raises `AttributeError`), and `td` is the
  text of the row's first cell (`x.td.text`, `none` when absent).
* Python's `str.split()` (split on whitespace runs, dropping empties) is
  `pySplit`.
* `pd.to_datetime` applied to the `date + " " + time` column is modelled
  by `parseDT`, a parser for the literal FinViz formats
  `"Dec-01-23"` / `"09:30AM"`; timestamps are total minutes in a
  mixed-radix encoding `((((y*13+m)*32+d)*24+h)*60+min)` which is
  order-preserving and makes hour/day floors exact divisions.
* The loop body of `parse_news` is `newsStep`, one `Except` step per row:
  only `AttributeError` is caught (the two `none` cases), while
  `IndexError` (empty token list hits `date_scrape[0]`), `NameError`
  (Python's unbound local `date` or unbound `parsed_news_df`) and
  `ValueError` (a `pd.to_datetime` failure) escape the `try` and abort.
* The VADER scorer is an opaque oracle `score : String → SentimentScore`;
  `score_news` applies it per headline and keeps the `datetime` index,
  renaming `compound` to `sentiment_score`.
* `resample('H').mean()` / `resample('D').mean()` are `resampleMean 60` /
  `resampleMean 1440`: buckets run from the floor of the minimal
  timestamp to the floor of the maximal one in fixed steps (pandas emits
  intervening empty buckets, whose mean is `NaN`, modelled as `none`).
-/

/-- Python exceptions distinguished by `parse_news`: `attributeError` is
the one caught by the `try`, the other three escape it. -/
inductive PyErr where
  | attributeError
  | nameError
  | indexError
  | valueError
deriving DecidableEq

/-- One `<tr>` element of the news table: optional link text and optional
date/time cell text. -/
structure TrRow where
  a : Option String
  td : Option String
deriving DecidableEq

/-- One row of `parsed_news_df`: the `date`, `time`, `headline` columns
plus the computed `datetime` column (total minutes). -/
structure ParsedRow where
  date : String
  time : String
  headline : String
  datetime : Nat
deriving DecidableEq

/-- Accumulator pass behind `pySplit`: `cur` holds the (reversed) current
token. -/
def pySplitAux (cur : List Char) : List Char → List String
  | [] => if cur.isEmpty then [] else [String.mk cur.reverse]
  | c :: rest =>
    if c.isWhitespace then
      if cur.isEmpty then pySplitAux [] rest
      else String.mk cur.reverse :: pySplitAux [] rest
    else pySplitAux (c :: cur) rest

/-- Python `str.split()`: split on whitespace runs, dropping empty pieces. -/
def pySplit (s : String) : List String := pySplitAux [] s.data

/-- Split a character list at every occurrence of `sep`, keeping empty
pieces — the semantics of Python `str.split(sep)` with an explicit
separator, used on the `"-"` and `":"` of the FinViz date/time tokens. -/
def splitOnChar (sep : Char) : List Char → List (List Char)
  | [] => [[]]
  | c :: rest =>
    match splitOnChar sep rest with
    | [] => [[]]
    | g :: gs => if c = sep then [] :: g :: gs else (c :: g) :: gs

/-- Value of a nonempty all-digit character run, accumulator form. -/
def digitsValAux (acc : Nat) : List Char → Option Nat
  | [] => some acc
  | c :: rest =>
    if c.isDigit then digitsValAux (acc * 10 + (c.toNat - 48)) rest else none

/-- Numeric value of a nonempty all-digit character list. -/
def digitsVal? (l : List Char) : Option Nat :=
  match l with
  | [] => none
  | _ => digitsValAux 0 l

/-- Three-letter month abbreviation as rendered by FinViz. -/
def monthNum (s : String) : Option Nat :=
  match s with
  | "Jan" => some 1
  | "Feb" => some 2
  | "Mar" => some 3
  | "Apr" => some 4
  | "May" => some 5
  | "Jun" => some 6
  | "Jul" => some 7
  | "Aug" => some 8
  | "Sep" => some 9
  | "Oct" => some 10
  | "Nov" => some 11
  | "Dec" => some 12
  | _ => none

/-- Parse a FinViz date token such as `"Dec-01-23"` into (year, month, day). -/
def parseDateTok (s : String) : Option (Nat × Nat × Nat) :=
  match splitOnChar '-' s.data with
  | [mon, dd, yy] =>
    match monthNum (String.mk mon), digitsVal? dd, digitsVal? yy with
    | some m, some d, some y =>
      if 1 ≤ d ∧ d ≤ 31 then some (2000 + y, m, d) else none
    | _, _, _ => none
  | _ => none

/-- Parse the `HH:MM` part of a FinViz time token, given whether the
suffix was `PM`, onto the 24-hour clock. -/
def parseClock (pm : Bool) (body : List Char) : Option (Nat × Nat) :=
  match splitOnChar ':' body with
  | [hh, mm] =>
    match digitsVal? hh, digitsVal? mm with
    | some h, some m =>
      if 1 ≤ h ∧ h ≤ 12 ∧ m < 60 then
        some (if pm then h % 12 + 12 else h % 12, m)
      else none
    | _, _ => none
  | _ => none

/-- Parse a FinViz 12-hour time token such as `"09:30AM"` into
(hour, minute) on the 24-hour clock. -/
def parseTimeTok (s : String) : Option (Nat × Nat) :=
  match s.data.reverse with
  | 'M' :: 'A' :: body => parseClock false body.reverse
  | 'M' :: 'P' :: body => parseClock true body.reverse
  | _ => none

/-- Total-minutes timestamp in a mixed-radix encoding: order-preserving
for calendar order, and hour/day floors are exact divisions by 60/1440. -/
def mkMinutes (y m d h mi : Nat) : Nat :=
  (((y * 13 + m) * 32 + d) * 24 + h) * 60 + mi

/-- Model of `pd.to_datetime` on one combined `date + " " + time` string. -/
def parseDT (s : String) : Option Nat :=
  match splitOnChar ' ' s.data with
  | [ds, ts] =>
    match parseDateTok (String.mk ds), parseTimeTok (String.mk ts) with
    | some (y, m, d), some (h, mi) => some (mkMinutes y m d h mi)
    | _, _ => none
  | _ => none

/-- Model of building `parsed_news_df` from the accumulated
`parsed_news` triples `(date, time, headline)`: `pd.to_datetime` is
applied to every row of the combined column and any failure raises. -/
def buildDf : List (String × String × String) → Option (List ParsedRow)
  | [] => some []
  | e :: rest =>
    match parseDT (e.1 ++ " " ++ e.2.1), buildDf rest with
    | some dt, some l => some (⟨e.1, e.2.1, e.2.2, dt⟩ :: l)
    | _, _ => none

/-- The local variables of the `parse_news` loop: `date` (`none` while the
Python local is unbound), the `parsed_news` list, and `parsed_news_df`
(`none` while unbound). -/
structure NewsState where
  date : Option String
  acc : List (String × String × String)
  df : Option (List ParsedRow)
deriving DecidableEq

/-- The state at function entry: `date` and `parsed_news_df` unbound,
`parsed_news = []`. -/
def initState : NewsState := ⟨none, [], none⟩

/-- One iteration of the `parse_news` loop over a `<tr>` row. Reading a
missing link or cell raises `AttributeError`, which the `try` catches
(`continue`); an empty token list raises `IndexError` at
`date_scrape[0]`; appending with the Python local `date` still unbound
raises `NameError`; a `pd.to_datetime` failure raises `ValueError`.
Those three escape the `try`. -/
def newsStep (s : NewsState) (x : TrRow) : Except PyErr NewsState :=
  match x.a, x.td with
  | none, _ => .ok s
  | some _, none => .ok s
  | some text, some cell =>
    match pySplit cell with
    | [t] =>
      match s.date with
      | none => .error .nameError
      | some d =>
        let acc := s.acc ++ [(d, t, text)]
        match buildDf acc with
        | none => .error .valueError
        | some df => .ok ⟨some d, acc, some df⟩
    | [] => .error .indexError
    | d :: t :: _ =>
      let acc := s.acc ++ [(d, t, text)]
      match buildDf acc with
      | none => .error .valueError
      | some df => .ok ⟨some d, acc, some df⟩

/-- Model of `parse_news`: fold the loop over the rows, then return
`parsed_news_df`; if no iteration ever bound it, Python raises
`NameError` at the `return`. -/
def parse_news (rows : List TrRow) : Except PyErr (List ParsedRow) := do
  let s ← rows.foldlM newsStep initState
  match s.df with
  | none => .error .nameError
  | some df => .ok df

/-- A row both of whose reads succeed: the headline link and the
date/time cell are present, so the `try` body runs without
`AttributeError`. -/
def extractOk (x : TrRow) : Bool := x.a.isSome && x.td.isSome

/-- Decidable equality of `Except` results, for evaluating the model on
concrete inputs. -/
instance {ε α : Type} [DecidableEq ε] [DecidableEq α] :
    DecidableEq (Except ε α) := fun a b =>
  match a, b with
  | .ok x, .ok y =>
    if h : x = y then .isTrue (by rw [h])
    else .isFalse (by intro hc; cases hc; exact h rfl)
  | .error e, .error f =>
    if h : e = f then .isTrue (by rw [h])
    else .isFalse (by intro hc; cases hc; exact h rfl)
  | .ok _, .error _ => .isFalse (by intro hc; cases hc)
  | .error _, .ok _ => .isFalse (by intro hc; cases hc)

/-- The record returned by `vader.polarity_scores` (opaque oracle). -/
structure SentimentScore where
  neg : ℚ
  neu : ℚ
  pos : ℚ
  compound : ℚ
deriving DecidableEq

/-- One row of `parsed_and_scored_news`: indexed by `datetime`, the
`date`/`time` columns dropped, `compound` renamed `sentiment_score`. -/
structure ScoredRow where
  datetime : Nat
  headline : String
  neg : ℚ
  neu : ℚ
  pos : ℚ
  sentiment_score : ℚ
deriving DecidableEq

/-- Model of `score_news` with the VADER analyzer abstracted as an
injected scoring function. -/
def score_news (score : String → SentimentScore) (df : List ParsedRow) :
    List ScoredRow :=
  df.map (fun r =>
    ⟨r.datetime, r.headline, (score r.headline).neg, (score r.headline).neu,
      (score r.headline).pos, (score r.headline).compound⟩)

/-- Floor of a total-minutes timestamp to a bucket width `w` in minutes. -/
def floorTo (w t : Nat) : Nat := t / w * w

/-- Model of `DataFrame.resample(freq).mean()` restricted to the
`sentiment_score` column (the one the figures plot): buckets run from the
floor of the least timestamp to the floor of the greatest in steps of
`w`, each carrying the mean of the member scores, or `none` (pandas NaN)
when the bucket is empty. -/
def resampleMean (w : Nat) (rows : List ScoredRow) : List (Nat × Option ℚ) :=
  match rows.map (fun r => floorTo w r.datetime) with
  | [] => []
  | k :: ks =>
    let lo := ks.foldl min k
    let hi := ks.foldl max k
    (List.range ((hi - lo) / w + 1)).map (fun i =>
      let b := lo + i * w
      let xs := rows.filter (fun r => floorTo w r.datetime = b)
      (b, if xs.length = 0 then none
          else some ((xs.map (fun r => r.sentiment_score)).sum / (xs.length : ℚ))))

/-- Model of `plot_hourly_sentiment`'s data: `resample('H').mean()`, the
series the bar chart draws (x = bucket start, y = mean sentiment score). -/
def plot_hourly_sentiment (df : List ScoredRow) : List (Nat × Option ℚ) :=
  resampleMean 60 df

/-- Model of `plot_daily_sentiment`'s data: `resample('D').mean()`. -/
def plot_daily_sentiment (df : List ScoredRow) : List (Nat × Option ℚ) :=
  resampleMean 1440 df

/-! ### Helper lemmas -/

theorem exceptBind_ok {α β ε : Type} (a : α) (f : α → Except ε β) :
    (Except.ok a >>= f) = f a := rfl

theorem exceptBind_error {α β ε : Type} (e : ε) (f : α → Except ε β) :
    ((Except.error e : Except ε α) >>= f) = Except.error e := rfl

theorem newsStep_skip (s : NewsState) (x : TrRow)
    (h : x.a = none ∨ x.td = none) : newsStep s x = .ok s := by
  obtain ⟨xa, xtd⟩ := x
  simp only at h
  rcases h with h | h
  · subst h; rfl
  · subst h; cases xa <;> rfl

theorem foldlM_newsStep_skip_all (rows : List TrRow) (s : NewsState)
    (h : ∀ x ∈ rows, x.a = none ∨ x.td = none) :
    rows.foldlM newsStep s = .ok s := by
  induction rows with
  | nil => rfl
  | cons x rest ih =>
    rw [List.foldlM_cons, newsStep_skip s x (h x (by simp)), exceptBind_ok]
    exact ih (fun y hy => h y (List.mem_cons_of_mem x hy))

theorem buildDf_append_none (d t hl : String)
    (hp : parseDT (d ++ " " ++ t) = none) :
    ∀ l : List (String × String × String), buildDf (l ++ [(d, t, hl)]) = none := by
  intro l
  induction l with
  | nil => simp [buildDf, hp]
  | cons e rest ih =>
    cases hdt : parseDT (e.1 ++ " " ++ e.2.1) <;> simp [buildDf, hdt, ih]

theorem buildDf_length :
    ∀ (l : List (String × String × String)) (r : List ParsedRow),
      buildDf l = some r → r.length = l.length := by
  intro l
  induction l with
  | nil => intro r h; simp only [buildDf] at h; cases h; rfl
  | cons e rest ih =>
    intro r h
    simp only [buildDf] at h
    cases hdt : parseDT (e.1 ++ " " ++ e.2.1) <;> rw [hdt] at h
    · cases h
    · cases hrest : buildDf rest <;> rw [hrest] at h
      · cases h
      · cases h; simp [ih _ hrest]

/-! ### Claims -/

/-- C1: for every row sequence processed in encounter order, a row whose
date cell has only a time token is assigned the most recent preceding
explicit date (the carried `date` local): whenever the loop step succeeds
on such a row it appends an entry dated by the carried date and leaves the
carried date unchanged; and on the concrete input
`[("Dec-01-23","09:00AM","h1"), (time-only "10:00AM","h2")]` both output
timestamps resolve to the date Dec-01-23. -/
theorem claim_C1_date_carry_forward :
    (∀ (s : NewsState) (x : TrRow) (d text cell t : String) (s' : NewsState),
      s.date = some d → x.a = some text → x.td = some cell →
      pySplit cell = [t] → newsStep s x = .ok s' →
      s'.date = some d ∧ s'.acc = s.acc ++ [(d, t, text)]) ∧
    parse_news [⟨some "h1", some "Dec-01-23 09:00AM"⟩,
        ⟨some "h2", some "10:00AM"⟩] =
      .ok [⟨"Dec-01-23", "09:00AM", "h1", mkMinutes 2023 12 1 9 0⟩,
           ⟨"Dec-01-23", "10:00AM", "h2", mkMinutes 2023 12 1 10 0⟩] := by
  constructor
  · intro s x d text cell t s' hd ha htd hsplit hstep
    obtain ⟨xa, xtd⟩ := x
    simp only at ha htd
    subst ha; subst htd
    simp only [newsStep, hsplit, hd] at hstep
    cases hb : buildDf (s.acc ++ [(d, t, text)]) <;> rw [hb] at hstep
    · cases hstep
    · cases hstep; exact ⟨rfl, rfl⟩
  · decide

/-- Witness for C1: the general conjunct applied at a concrete state that
carries the date `Dec-01-23` and a concrete time-only row. -/
theorem claim_C1_witness :
    (⟨some "Dec-01-23", [("Dec-01-23", "10:00AM", "h2")],
      some [⟨"Dec-01-23", "10:00AM", "h2", mkMinutes 2023 12 1 10 0⟩]⟩ :
        NewsState).date = some "Dec-01-23" ∧
    (⟨some "Dec-01-23", [("Dec-01-23", "10:00AM", "h2")],
      some [⟨"Dec-01-23", "10:00AM", "h2", mkMinutes 2023 12 1 10 0⟩]⟩ :
        NewsState).acc = [] ++ [("Dec-01-23", "10:00AM", "h2")] :=
  claim_C1_date_carry_forward.1 ⟨some "Dec-01-23", [], none⟩
    ⟨some "h2", some "10:00AM"⟩ "Dec-01-23" "h2" "10:00AM" "10:00AM" _
    rfl rfl rfl (by decide) (by decide)

/-- C2: if the very first row's date cell holds only a time token (and the
row otherwise extracts), the whole invocation fails — the Python local
`date` is referenced before assignment, the `NameError` the spec calls
MissingDateError — and no record is produced. -/
theorem claim_C2_first_row_missing_date (x : TrRow) (rest : List TrRow)
    (text cell t : String) (ha : x.a = some text) (htd : x.td = some cell)
    (hsplit : pySplit cell = [t]) :
    parse_news (x :: rest) = .error .nameError := by
  obtain ⟨xa, xtd⟩ := x
  simp only at ha htd
  subst ha; subst htd
  have hstep : newsStep initState ⟨some text, some cell⟩ = .error .nameError := by
    simp only [newsStep, hsplit]; rfl
  unfold parse_news
  rw [List.foldlM_cons, hstep, exceptBind_error, exceptBind_error]

/-- Witness for C2: the single-row input whose only cell token is a time. -/
theorem claim_C2_witness :
    parse_news [⟨some "h1", some "09:00AM"⟩] = .error .nameError :=
  claim_C2_first_row_missing_date ⟨some "h1", some "09:00AM"⟩ []
    "h1" "09:00AM" "09:00AM" rfl rfl (by decide)

/-- C3 counterexample: a middle row that has its headline link but whose
date/time cell holds no token at all ("lacks the time token") is not
silently dropped — `date_scrape[0]` raises an uncaught `IndexError` and
the whole invocation errors instead of yielding the two valid records. -/
theorem claim_C3_counterexample :
    parse_news [⟨some "h1", some "Dec-01-23 09:00AM"⟩, ⟨some "hm", some " "⟩,
      ⟨some "h3", some "Dec-01-23 10:00AM"⟩] = .error .indexError := by
  decide

/-- C3 amended: a malformed row whose headline link element or whose
date/time cell element is absent (the `AttributeError` cases) is silently
dropped, and `[valid_row, malformed_row, valid_row2]` yields exactly the
two records of the valid rows; a row whose cell is present but holds no
token instead aborts the invocation with an `IndexError`. -/
theorem claim_C3_missing_element_skipped (m : TrRow)
    (hm : m.a = none ∨ m.td = none) :
    parse_news [⟨some "h1", some "Dec-01-23 09:00AM"⟩, m,
        ⟨some "h3", some "Dec-01-23 10:00AM"⟩] =
      .ok [⟨"Dec-01-23", "09:00AM", "h1", mkMinutes 2023 12 1 9 0⟩,
           ⟨"Dec-01-23", "10:00AM", "h3", mkMinutes 2023 12 1 10 0⟩] := by
  obtain ⟨ma, mtd⟩ := m
  simp only at hm
  rcases hm with h | h
  · subst h; rfl
  · subst h; cases ma <;> rfl

/-- Witness for C3 amended: the malformed middle row misses both elements. -/
theorem claim_C3_witness :
    parse_news [⟨some "h1", some "Dec-01-23 09:00AM"⟩, ⟨none, none⟩,
        ⟨some "h3", some "Dec-01-23 10:00AM"⟩] =
      .ok [⟨"Dec-01-23", "09:00AM", "h1", mkMinutes 2023 12 1 9 0⟩,
           ⟨"Dec-01-23", "10:00AM", "h3", mkMinutes 2023 12 1 10 0⟩] :=
  claim_C3_missing_element_skipped ⟨none, none⟩ (Or.inl rfl)

/-- C9: when every row fails extraction (each lacks its headline link or
its date/time cell), no iteration ever binds `parsed_news_df`, so
`parse_news` does not return an empty sequence — it aborts with the
unbound-variable `NameError` at the `return`; the empty table is the
degenerate case. -/
theorem claim_C9_all_malformed_unbound (rows : List TrRow)
    (h : ∀ x ∈ rows, x.a = none ∨ x.td = none) :
    parse_news rows = .error .nameError := by
  unfold parse_news
  rw [foldlM_newsStep_skip_all rows initState h, exceptBind_ok]
  rfl

/-- Witness for C9: a one-row table whose row misses both elements. -/
theorem claim_C9_witness :
    parse_news [⟨none, none⟩] = .error .nameError :=
  claim_C9_all_malformed_unbound [⟨none, none⟩]
    (fun x hx => by rw [List.mem_singleton] at hx; subst hx; exact Or.inl rfl)

/-- C10: a row skipped for a missing headline link never updates the
carried date, because `x.a.get_text()` raises before the date cell is
read: the loop state is unchanged even when the row's cell holds a new
explicit date, and in the concrete run the later time-only row resolves
to `Dec-01-23` (the date of the last successfully extracted row), not to
the `Dec-02-23` printed on the skipped row. -/
theorem claim_C10_skipped_row_keeps_date :
    (∀ (s : NewsState) (x : TrRow), x.a = none → newsStep s x = .ok s) ∧
    parse_news [⟨some "h1", some "Dec-01-23 09:00AM"⟩,
        ⟨none, some "Dec-02-23 08:00AM"⟩, ⟨some "h3", some "09:00AM"⟩] =
      .ok [⟨"Dec-01-23", "09:00AM", "h1", mkMinutes 2023 12 1 9 0⟩,
           ⟨"Dec-01-23", "09:00AM", "h3", mkMinutes 2023 12 1 9 0⟩] := by
  constructor
  · intro s x hx
    exact newsStep_skip s x (Or.inl hx)
  · decide

/-- Witness for C10: the skipped row carrying the fresh date `Dec-02-23`
leaves the entry state untouched. -/
theorem claim_C10_witness :
    newsStep initState ⟨none, some "Dec-02-23 08:00AM"⟩ = .ok initState :=
  claim_C10_skipped_row_keeps_date.1 initState
    ⟨none, some "Dec-02-23 08:00AM"⟩ rfl

/-- C4: whatever rows were already processed, when the row being appended
yields a combined `date + " " + time` string that `pd.to_datetime`
rejects, the whole invocation fails with the uncaught `ValueError` — no
subset of the successfully parsed rows is returned. -/
theorem claim_C4_malformed_timestamp_aborts
    (pre : List TrRow) (x : TrRow) (post : List TrRow) (s : NewsState)
    (text cell d t : String)
    (hpre : pre.foldlM newsStep initState = .ok s)
    (ha : x.a = some text) (htd : x.td = some cell)
    (hcase : (pySplit cell = [t] ∧ s.date = some d) ∨
      ∃ rest, pySplit cell = d :: t :: rest)
    (hp : parseDT (d ++ " " ++ t) = none) :
    parse_news (pre ++ x :: post) = .error .valueError := by
  have hstep : newsStep s x = .error .valueError := by
    obtain ⟨xa, xtd⟩ := x
    simp only at ha htd
    subst ha; subst htd
    rcases hcase with ⟨hsplit, hd⟩ | ⟨rest, hsplit⟩
    · simp only [newsStep, hsplit, hd, buildDf_append_none d t text hp s.acc]
    · simp only [newsStep, hsplit, buildDf_append_none d t text hp s.acc]
  have hfold : (pre ++ x :: post).foldlM newsStep initState =
      .error .valueError := by
    rw [List.foldlM_append, hpre, exceptBind_ok, List.foldlM_cons, hstep,
      exceptBind_error]
  unfold parse_news
  rw [hfold, exceptBind_error]

/-- Witness for C4: one good row followed by a row whose date token has an
unknown month name, so the combined string does not parse. -/
theorem claim_C4_witness :
    parse_news ([⟨some "h1", some "Dec-01-23 09:00AM"⟩] ++
        ⟨some "h2", some "Foo-01-23 10:00AM"⟩ :: []) = .error .valueError :=
  claim_C4_malformed_timestamp_aborts
    [⟨some "h1", some "Dec-01-23 09:00AM"⟩]
    ⟨some "h2", some "Foo-01-23 10:00AM"⟩ []
    ⟨some "Dec-01-23", [("Dec-01-23", "09:00AM", "h1")],
      some [⟨"Dec-01-23", "09:00AM", "h1", mkMinutes 2023 12 1 9 0⟩]⟩
    "h2" "Foo-01-23 10:00AM" "Foo-01-23" "10:00AM"
    (by decide) rfl rfl (Or.inr ⟨[], by decide⟩) (by decide)

/-- C5: hourly bucketing takes the arithmetic mean of compound scores per
hour floor: scores 0.2 and 0.6 at 09:05 and 09:45 give one 09:00 bucket
with mean 0.4, and score -0.2 at 10:10 gives a separate 10:00 bucket with
mean -0.2. -/
theorem claim_C5_hourly_bucket_means :
    plot_hourly_sentiment
      [⟨mkMinutes 2023 12 1 9 5, "h1", 0, 0, 0, 1/5⟩,
       ⟨mkMinutes 2023 12 1 9 45, "h2", 0, 0, 0, 3/5⟩,
       ⟨mkMinutes 2023 12 1 10 10, "h3", 0, 0, 0, -(1/5)⟩] =
    [(mkMinutes 2023 12 1 9 0, some (2/5)),
     (mkMinutes 2023 12 1 10 0, some (-(1/5)))] := by
  have hr : List.range 2 = [0, 1] := by decide
  norm_num [plot_hourly_sentiment, resampleMean, floorTo, mkMinutes,
    List.filter, List.sum, hr]
  exact fun h => (List.cons_ne_nil _ _ h).elim

/-- C6: daily bucketing coarsens the same data: the same three headlines
on one calendar day give a single daily bucket with mean
(0.2 + 0.6 - 0.2) / 3 = 0.2. -/
theorem claim_C6_daily_bucket_mean :
    plot_daily_sentiment
      [⟨mkMinutes 2023 12 1 9 5, "h1", 0, 0, 0, 1/5⟩,
       ⟨mkMinutes 2023 12 1 9 45, "h2", 0, 0, 0, 3/5⟩,
       ⟨mkMinutes 2023 12 1 10 10, "h3", 0, 0, 0, -(1/5)⟩] =
    [(mkMinutes 2023 12 1 0 0, some (1/5))] := by
  have hr : List.range 1 = [0] := by decide
  norm_num [plot_daily_sentiment, resampleMean, floorTo, mkMinutes,
    List.filter, List.sum, hr]
  exact fun h => (List.cons_ne_nil _ _ h).elim

theorem resampleMean_keys_pairwise (w : Nat) (rows : List ScoredRow)
    (hw : 0 < w) :
    ((resampleMean w rows).map Prod.fst).Pairwise (· < ·) := by
  unfold resampleMean
  cases hm : rows.map (fun r => floorTo w r.datetime) with
  | nil => simp
  | cons k ks =>
    simp only [List.map_map]
    refine List.Pairwise.map _ ?_ (List.pairwise_lt_range _)
    intro a b hab
    simp only [Function.comp]
    exact Nat.add_lt_add_left (mul_lt_mul_of_pos_right hab hw) _

/-- C7: for every scored input, both bucketed outputs (hourly and daily)
are strictly ascending in bucket start, hence have no duplicate keys. -/
theorem claim_C7_buckets_strictly_ascending (df : List ScoredRow) :
    ((plot_hourly_sentiment df).map Prod.fst).Pairwise (· < ·) ∧
    ((plot_daily_sentiment df).map Prod.fst).Pairwise (· < ·) :=
  ⟨resampleMean_keys_pairwise 60 df (by norm_num),
   resampleMean_keys_pairwise 1440 df (by norm_num)⟩

/-- Witness for C7: the bucket sequences of a concrete two-headline input
are strictly ascending. -/
theorem claim_C7_witness :
    ((plot_hourly_sentiment
        [⟨mkMinutes 2023 12 1 9 5, "h1", 0, 0, 0, 1/5⟩,
         ⟨mkMinutes 2023 12 1 10 10, "h3", 0, 0, 0, -(1/5)⟩]).map
      Prod.fst).Pairwise (· < ·) ∧
    ((plot_daily_sentiment
        [⟨mkMinutes 2023 12 1 9 5, "h1", 0, 0, 0, 1/5⟩,
         ⟨mkMinutes 2023 12 1 10 10, "h3", 0, 0, 0, -(1/5)⟩]).map
      Prod.fst).Pairwise (· < ·) :=
  claim_C7_buckets_strictly_ascending
    [⟨mkMinutes 2023 12 1 9 5, "h1", 0, 0, 0, 1/5⟩,
     ⟨mkMinutes 2023 12 1 10 10, "h3", 0, 0, 0, -(1/5)⟩]

theorem newsStep_ok_cases (s : NewsState) (x : TrRow) (s1 : NewsState)
    (h : newsStep s x = .ok s1) :
    (extractOk x = false ∧ s1 = s) ∨
    (extractOk x = true ∧ ∃ e df, s1.acc = s.acc ++ [e] ∧ s1.df = some df ∧
      buildDf s1.acc = some df) := by
  obtain ⟨xa, xtd⟩ := x
  cases xa with
  | none =>
    left
    refine ⟨rfl, ?_⟩
    simp only [newsStep, Except.ok.injEq] at h
    exact h.symm
  | some text =>
    cases xtd with
    | none =>
      left
      refine ⟨rfl, ?_⟩
      simp only [newsStep, Except.ok.injEq] at h
      exact h.symm
    | some cell =>
      right
      refine ⟨rfl, ?_⟩
      simp only [newsStep] at h
      split at h
      · split at h
        · cases h
        · split at h
          · cases h
          case _ df hb =>
            cases h
            exact ⟨_, df, rfl, rfl, hb⟩
      · cases h
      · split at h
        · cases h
        case _ df hb =>
          cases h
          exact ⟨_, df, rfl, rfl, hb⟩

theorem foldlM_newsStep_ok (rows : List TrRow) :
    ∀ s s' : NewsState, rows.foldlM newsStep s = .ok s' →
      s'.acc.length = s.acc.length + rows.countP extractOk ∧
      ((∀ l, s.df = some l → l.length = s.acc.length) →
        ∀ l, s'.df = some l → l.length = s'.acc.length) := by
  induction rows with
  | nil =>
    intro s s' h
    rw [List.foldlM_nil] at h
    cases h
    simp
  | cons x rest ih =>
    intro s s' h
    rw [List.foldlM_cons] at h
    cases hstep : newsStep s x with
    | error e =>
      rw [hstep, exceptBind_error] at h
      cases h
    | ok s1 =>
      rw [hstep, exceptBind_ok] at h
      obtain ⟨hlen, hinv⟩ := ih s1 s' h
      rcases newsStep_ok_cases s x s1 hstep with ⟨hex, rfl⟩ |
        ⟨hex, e, df, hacc, hdf, hbuild⟩
      · refine ⟨?_, hinv⟩
        rw [List.countP_cons, hex]
        simp
        omega
      · constructor
        · rw [hlen, hacc, List.countP_cons, hex, List.length_append]
          simp
          omega
        · intro _
          refine hinv ?_
          intro l0 hl0
          rw [hdf] at hl0
          cases hl0
          exact buildDf_length s1.acc df hbuild

/-- C8: for every row sequence on which `parse_news` succeeds, the number
of output records is at most the number of input rows, with equality
exactly when no row is dropped, i.e. every row presents both its headline
link and its date/time cell (and hence, the call having succeeded, a
carry-forwardable date). -/
theorem claim_C8_count_bound (rows : List TrRow) (l : List ParsedRow)
    (h : parse_news rows = .ok l) :
    l.length ≤ rows.length ∧
      (l.length = rows.length ↔ ∀ x ∈ rows, x.a.isSome ∧ x.td.isSome) := by
  unfold parse_news at h
  cases hf : rows.foldlM newsStep initState with
  | error e =>
    rw [hf, exceptBind_error] at h
    cases h
  | ok s' =>
    rw [hf, exceptBind_ok] at h
    cases hdf : s'.df with
    | none =>
      rw [hdf] at h
      cases h
    | some df =>
      rw [hdf] at h
      cases h
      obtain ⟨hlen, hinv⟩ := foldlM_newsStep_ok rows initState s' hf
      have hdflen : l.length = s'.acc.length := by
        refine hinv ?_ l hdf
        intro l0 hl0
        simp [initState] at hl0
      have hcount : l.length = rows.countP extractOk := by
        rw [hdflen, hlen]
        simp [initState]
      constructor
      · rw [hcount]
        exact List.countP_le_length extractOk
      · rw [hcount, List.countP_eq_length]
        constructor
        · intro hall x hx
          have := hall x hx
          simpa [extractOk] using this
        · intro hall x hx
          have := hall x hx
          simpa [extractOk] using this

/-- Witness for C8: a single well-formed row yields one record, with the
equality side of the bound holding. -/
theorem claim_C8_witness :
    ([⟨"Dec-01-23", "09:00AM", "h1", mkMinutes 2023 12 1 9 0⟩] :
        List ParsedRow).length ≤
      ([⟨some "h1", some "Dec-01-23 09:00AM"⟩] : List TrRow).length ∧
    (([⟨"Dec-01-23", "09:00AM", "h1", mkMinutes 2023 12 1 9 0⟩] :
        List ParsedRow).length =
      ([⟨some "h1", some "Dec-01-23 09:00AM"⟩] : List TrRow).length ↔
      ∀ x ∈ ([⟨some "h1", some "Dec-01-23 09:00AM"⟩] : List TrRow),
        x.a.isSome ∧ x.td.isSome) :=
  claim_C8_count_bound [⟨some "h1", some "Dec-01-23 09:00AM"⟩]
    [⟨"Dec-01-23", "09:00AM", "h1", mkMinutes 2023 12 1 9 0⟩] (by decide)
